import Mathlib

/-!
Shallow embedding of the Binance WebSocket stream manager
(`src/lib/websocket.ts` of the trading-dashboard repository) and proofs of
the specification's claims about it.

Modelling conventions:
* JavaScript strings are Lean `String`s; `String.toLowerCase` is modelled
  for the ASCII range (exchange symbols are ASCII tickers).
* JavaScript numbers are modelled as `Nat` where the code only ever holds
  non-negative integers (timestamps, counters, delays), and as `Option ℚ`
  for the results of `Number.parseFloat` (`none` stands for `NaN`; finite
  decimal strings are represented exactly, binary-float rounding is not
  modelled — no claim here depends on rounding).
* The mutable `BinanceWebSocket` instance is a `WSState` record; each
  method or event callback of the class becomes a state-passing function.
  Calls into user-supplied callbacks and socket creation are observable
  effects, returned as a `List Event`.
* `setTimeout`/`setInterval` timers are represented by their scheduled
  payload: `attemptReconnect` returns the delay of the timer it schedules
  (`none` when it schedules nothing), and `reconnectTimerBody` is the
  function the environment runs when such a timer fires.  The source
  stores no handle to the reconnection timeout, so no state field exists
  for it; the keepalive interval handle is the Boolean `pingActive`.
-/

namespace BinanceWS

/-- `ConnectionState` union type from the source. -/
inductive ConnectionState where
  | connecting
  | connected
  | disconnected
  | error
deriving DecidableEq, Repr

/-- Browser `WebSocket.readyState` values. -/
inductive ReadyState where
  | CONNECTING
  | OPEN
  | CLOSING
  | CLOSED
deriving DecidableEq, Repr

/-- `WS_BASE_URL` constant from the source. -/
def WS_BASE_URL : String := "wss://testnet.binance.vision/ws"

/-- ASCII lower-casing of one character, as `String.prototype.toLowerCase`
acts on the ASCII letters (exchange symbols are ASCII). -/
def lowerChar (c : Char) : Char :=
  if 'A' ≤ c ∧ c ≤ 'Z' then Char.ofNat (c.toNat + 32) else c

/-- Model of `symbol.toLowerCase()` (ASCII range). -/
def toLowerCase (s : String) : String :=
  String.mk (s.data.map lowerChar)

/-- `getKlineStreamName`: `` `${symbol.toLowerCase()}@kline_${interval}` ``. -/
def getKlineStreamName (symbol interval : String) : String :=
  toLowerCase symbol ++ "@kline_" ++ interval

/-- `getTradeStreamName`: `` `${symbol.toLowerCase()}@trade` ``. -/
def getTradeStreamName (symbol : String) : String :=
  toLowerCase symbol ++ "@trade"

/-- `createStreamUrl`: a single stream gets a direct path, any other
count gets the combined-stream path with the keys joined by `/`. -/
def createStreamUrl (streams : List String) : String :=
  match streams with
  | [s] => WS_BASE_URL ++ "/" ++ s
  | _ => WS_BASE_URL ++ "/stream?streams=" ++ String.intercalate "/" streams

/-- Numeric value of a decimal digit character. -/
def digitVal (c : Char) : Nat := c.toNat - 48

/-- Value of a digit list read left to right. -/
def digitsToNat (cs : List Char) : Nat :=
  cs.foldl (fun acc c => acc * 10 + digitVal c) 0

/-- Model of `Number.parseFloat` on the decimal strings the exchange
sends: optional sign, longest digit run, optional `.` and fraction digit
run; trailing characters are ignored, and a string with no leading
numeric part gives `NaN` (`none`).  Exponents are not modelled (the
exchange never sends them). -/
def parseFloat (s : String) : Option ℚ :=
  let (sign, cs) :=
    match s.data with
    | '-' :: rest => ((-1 : ℚ), rest)
    | '+' :: rest => ((1 : ℚ), rest)
    | cs => ((1 : ℚ), cs)
  let intPart := cs.takeWhile Char.isDigit
  let rest := cs.dropWhile Char.isDigit
  match rest with
  | '.' :: fracCs =>
    let fracPart := fracCs.takeWhile Char.isDigit
    if intPart.isEmpty ∧ fracPart.isEmpty then none
    else
      some (sign * ((digitsToNat intPart : ℚ) +
        (digitsToNat fracPart : ℚ) / (10 : ℚ) ^ fracPart.length))
  | _ =>
    if intPart.isEmpty then none
    else some (sign * (digitsToNat intPart : ℚ))

/-- The `k` object of a `BinanceKlineWS` frame.  Only the fields the
embedded code reads (`t`, `i`, `o`, `c`, `h`, `l`, `v`) plus the symbol
`s` are kept; the remaining fields of the TypeScript interface (`T`, `f`,
`L`, `n`, `x`, `q`, `V`, `Q`, `B`) are never read by the stream manager. -/
structure KlineK where
  t : Nat
  s : String
  i : String
  o : String
  c : String
  h : String
  l : String
  v : String
deriving DecidableEq, Repr

/-- `BinanceKlineWS` frame (fields read by the stream manager). -/
structure BinanceKlineWS where
  e : String
  s : String
  k : KlineK
deriving DecidableEq, Repr

/-- `TradeStreamData` interface from `src/types/trade.ts`. -/
structure TradeStreamData where
  e : String
  E : Nat
  s : String
  t : Nat
  p : String
  q : String
  b : Nat
  a : Nat
  T : Nat
  m : Bool
  M : Bool
deriving DecidableEq, Repr

/-- `CandlestickData` from `src/types/chart.ts`: `time` in whole seconds,
OHLCV as JS numbers (modelled as `Option ℚ`, `none` = `NaN`). -/
structure CandlestickData where
  time : Nat
  «open» : Option ℚ
  high : Option ℚ
  low : Option ℚ
  close : Option ℚ
  volume : Option ℚ
deriving DecidableEq, Repr

/-- `parseKlineData`: `Math.floor(data.k.t / 1000)` and
`Number.parseFloat` on the OHLCV strings. -/
def parseKlineData (data : BinanceKlineWS) : CandlestickData :=
  { time := data.k.t / 1000
    «open» := parseFloat data.k.o
    high := parseFloat data.k.h
    low := parseFloat data.k.l
    close := parseFloat data.k.c
    volume := parseFloat data.k.v }

/-- Handlers are opaque callbacks; the embedding identifies them by an id
so that "which handler was invoked with what" is observable. -/
abbrev HandlerId := Nat

/-- A JS `Map<string, HandlerId>`: at most one entry per key, insertion
order kept.  `klineHandlers` and `tradeHandlers` of the class. -/
abbrev Registry := List (String × HandlerId)

/-- `Map.prototype.set`: replace in place if the key exists, else append. -/
def mapSet (m : Registry) (k : String) (v : HandlerId) : Registry :=
  match m with
  | [] => [(k, v)]
  | e :: rest => if e.1 = k then (k, v) :: rest else e :: mapSet rest k v

/-- `Map.prototype.delete`. -/
def mapDelete (m : Registry) (k : String) : Registry :=
  m.filter (fun e => e.1 != k)

/-- `Map.prototype.get` (`none` = `undefined`). -/
def mapGet (m : Registry) (k : String) : Option HandlerId :=
  (m.find? (fun e => e.1 == k)).map (·.2)

/-- State of one `BinanceWebSocket` instance.  `ws` is `none` when the
field is `null`, otherwise the readyState of the socket it points to;
`pingActive` models whether `pingInterval` holds a live interval handle.
`maxReconnectAttempts` and `reconnectDelay` are the fixed constants `5`
and `1000` (below). -/
structure WSState where
  ws : Option ReadyState
  reconnectAttempts : Nat
  pingActive : Bool
  streams : List String
  klineHandlers : Registry
  tradeHandlers : Registry
  connectionHandlers : List HandlerId
deriving DecidableEq, Repr

/-- Field initialiser `maxReconnectAttempts = 5`. -/
def maxReconnectAttempts : Nat := 5

/-- Field initialiser `reconnectDelay = 1000` (ms). -/
def reconnectDelay : Nat := 1000

/-- A freshly constructed `BinanceWebSocket` (the field initialisers). -/
def initState : WSState :=
  { ws := none
    reconnectAttempts := 0
    pingActive := false
    streams := []
    klineHandlers := []
    tradeHandlers := []
    connectionHandlers := [] }

/-- Observable effects of a method or event callback: invoking a
registered connection observer, invoking a kline/trade subscriber, or
constructing a `new WebSocket(url)` (a connection attempt). -/
inductive Event where
  | stateChange (h : HandlerId) (st : ConnectionState)
  | klineCallback (h : HandlerId) (c : CandlestickData)
  | tradeCallback (h : HandlerId) (t : TradeStreamData)
  | socketOpenAttempt (url : String)
deriving DecidableEq, Repr

/-- `notifyConnectionState`: invokes every registered connection handler
with the new state, in registration order. -/
def notifyConnectionState (s : WSState) (st : ConnectionState) : List Event :=
  s.connectionHandlers.map (fun h => Event.stateChange h st)

/-- `stopPing`: clears the keepalive interval. -/
def stopPing (s : WSState) : WSState :=
  { s with pingActive := false }

/-- `createConnection`: closes a still-open old socket (the old object is
discarded from the state once the field is overwritten), announces
`connecting`, then constructs a new socket to `createStreamUrl(streams)`.
The socket's callbacks (`handleOpen`, `handleMessage`, `handleError`,
`handleClose` below) are run later by the environment. -/
def createConnection (s : WSState) : WSState × List Event :=
  ({ s with ws := some ReadyState.CONNECTING },
    notifyConnectionState s ConnectionState.connecting ++
      [Event.socketOpenAttempt (createStreamUrl s.streams)])

/-- `connect(streams)`: stores the stream list and creates the connection. -/
def connect (s : WSState) (streams : List String) : WSState × List Event :=
  createConnection { s with streams := streams }

/-- `ws.onopen`: the socket is now OPEN; reset the attempt counter,
announce `connected`, start the keepalive ping. -/
def handleOpen (s : WSState) : WSState × List Event :=
  let s1 := { s with ws := some ReadyState.OPEN, reconnectAttempts := 0 }
  ({ s1 with pingActive := true },
    notifyConnectionState s1 ConnectionState.connected)

/-- `ws.onerror`: announces `error`; mutates nothing. -/
def handleError (s : WSState) : WSState × List Event :=
  (s, notifyConnectionState s ConnectionState.error)

/-- `attemptReconnect`: below the cap, increments the attempt counter and
schedules a timer with delay `reconnectDelay * 2 ^ (attempts − 1)`
(returned as `some delay`); at or above the cap it only logs and
schedules nothing (`none`).  The timer body is `reconnectTimerBody`. -/
def attemptReconnect (s : WSState) : WSState × Option Nat :=
  if s.reconnectAttempts ≥ maxReconnectAttempts then (s, none)
  else
    let attempts := s.reconnectAttempts + 1
    ({ s with reconnectAttempts := attempts },
      some (reconnectDelay * 2 ^ (attempts - 1)))

/-- Body of the `setTimeout` callback scheduled by `attemptReconnect`:
reconnect only when a stream list is still present. -/
def reconnectTimerBody (s : WSState) : WSState × List Event :=
  if s.streams.length > 0 then createConnection s else (s, [])

/-- `ws.onclose`: the browser has moved the socket (if the field still
points to it) to CLOSED; announce `disconnected`, stop the ping, attempt
to reconnect.  Third component: the delay of the reconnection timer
scheduled, if any. -/
def handleClose (s : WSState) : WSState × List Event × Option Nat :=
  let evs := notifyConnectionState s ConnectionState.disconnected
  let s1 := stopPing { s with ws := s.ws.map (fun _ => ReadyState.CLOSED) }
  let (s2, d) := attemptReconnect s1
  (s2, evs, d)

/-- A decoded payload the way `handleMessage` discriminates it after
`JSON.parse` and envelope unwrapping: a value whose `e` field is
`"kline"`, one whose `e` field is `"trade"`, or any other JSON value. -/
inductive Payload where
  | kline (d : BinanceKlineWS)
  | trade (d : TradeStreamData)
  | other
deriving DecidableEq, Repr

/-- An inbound text frame as `handleMessage` receives it: `invalid` when
`JSON.parse` throws, a bare payload, or a combined-stream envelope whose
`data` field holds the payload. -/
inductive RawFrame where
  | invalid
  | direct (p : Payload)
  | combined (stream : String) (p : Payload)
deriving DecidableEq, Repr

/-- `JSON.parse` plus `parsed.data || parsed`: `none` when parsing threw
(the surrounding `try`/`catch` logs and drops the frame). -/
def frameData : RawFrame → Option Payload
  | RawFrame.invalid => none
  | RawFrame.direct p => some p
  | RawFrame.combined _ p => some p

/-- `handleMessage`: routes a decoded kline/trade payload to the handler
registered under its derived stream key; unknown discriminators, parse
failures and missing handlers are dropped.  The method reads but never
writes the instance fields, so it returns only the callback invocations. -/
def handleMessage (s : WSState) (fr : RawFrame) : List Event :=
  match frameData fr with
  | none => []
  | some (Payload.kline d) =>
    match mapGet s.klineHandlers (getKlineStreamName d.s d.k.i) with
    | some h => [Event.klineCallback h (parseKlineData d)]
    | none => []
  | some (Payload.trade d) =>
    match mapGet s.tradeHandlers (getTradeStreamName d.s) with
    | some h => [Event.tradeCallback h d]
    | none => []
  | some Payload.other => []

/-- `subscribeKline(symbol, interval, handler)`. -/
def subscribeKline (s : WSState) (symbol interval : String)
    (h : HandlerId) : WSState :=
  { s with klineHandlers :=
      mapSet s.klineHandlers (getKlineStreamName symbol interval) h }

/-- `unsubscribeKline(symbol, interval)`. -/
def unsubscribeKline (s : WSState) (symbol interval : String) : WSState :=
  { s with klineHandlers :=
      mapDelete s.klineHandlers (getKlineStreamName symbol interval) }

/-- `subscribeTrade(symbol, handler)`. -/
def subscribeTrade (s : WSState) (symbol : String) (h : HandlerId) : WSState :=
  { s with tradeHandlers :=
      mapSet s.tradeHandlers (getTradeStreamName symbol) h }

/-- `unsubscribeTrade(symbol)`. -/
def unsubscribeTrade (s : WSState) (symbol : String) : WSState :=
  { s with tradeHandlers :=
      mapDelete s.tradeHandlers (getTradeStreamName symbol) }

/-- `getState()`: `null` socket and the CLOSING/CLOSED readyStates all
report `disconnected`; `error` is never produced. -/
def getState (s : WSState) : ConnectionState :=
  match s.ws with
  | none => ConnectionState.disconnected
  | some ReadyState.CONNECTING => ConnectionState.connecting
  | some ReadyState.OPEN => ConnectionState.connected
  | some _ => ConnectionState.disconnected

/-- `disconnect()`: stop the ping, clear the three registries and the
stream list, then close and null the socket.  The Boolean records
whether `ws.close()` was called (the field was non-null).  The method
never touches `reconnectAttempts` and stores no timer handle to cancel. -/
def disconnect (s : WSState) : WSState × Bool :=
  let s1 := stopPing s
  let s2 := { s1 with
    klineHandlers := []
    tradeHandlers := []
    connectionHandlers := []
    streams := [] }
  match s2.ws with
  | some _ => ({ s2 with ws := none }, true)
  | none => (s2, false)

/-- Characterwise case-equivalence on char lists: equal after ASCII
lower-casing, position by position. -/
def caseEquivChars : List Char → List Char → Bool
  | [], [] => true
  | c1 :: r1, c2 :: r2 => lowerChar c1 == lowerChar c2 && caseEquivChars r1 r2
  | _, _ => false

/-- Two strings differ only in letter case: same length, characters
pairwise equal up to ASCII case. -/
def caseEquiv (s1 s2 : String) : Bool :=
  caseEquivChars s1.data s2.data

/-- A state whose only deviation from a fresh instance is the reconnect
attempt counter (used to examine the backoff logic at each counter value). -/
def stateWithAttempts (n : Nat) : WSState :=
  { initState with reconnectAttempts := n }

/-- A sample kline frame (`e = "kline"`, symbol `BTCUSDT`, interval `1m`,
start time 1700000000000 ms). -/
def sampleKline : BinanceKlineWS :=
  { e := "kline"
    s := "BTCUSDT"
    k := { t := 1700000000000, s := "BTCUSDT", i := "1m",
           o := "100.5", c := "101", h := "102", l := "99.5", v := "3.2" } }

/-- A sample trade frame used to exercise the trade half of the registry. -/
def sampleTrade : TradeStreamData :=
  { e := "trade", E := 1, s := "ETHUSDT", t := 9, p := "2500.25", q := "1.5",
    b := 2, a := 3, T := 1700000000100, m := true, M := true }

/-- The trade payload of the combined-stream envelope named by the spec:
`{ e: "trade", s: "BTCUSDT", p: "50000.1", q: "0.01", T: 1700000000000,
m: false }`.  Fields absent from that frame (`E`, `t`, `b`, `a`, `M`) are
never read by the dispatch path and are filled with defaults. -/
def specTradeFrame : TradeStreamData :=
  { e := "trade", E := 0, s := "BTCUSDT", t := 0, p := "50000.1", q := "0.01",
    b := 0, a := 0, T := 1700000000000, m := false, M := false }

/-! ## Helper lemmas -/

/-- Deleting a key from a registry removes every entry found under it. -/
theorem find?_mapDelete (m : Registry) (k : String) :
    (mapDelete m k).find? (fun e => e.1 == k) = none := by
  induction m with
  | nil => rfl
  | cons e rest ih =>
    by_cases h : e.1 = k
    · simp only [mapDelete] at ih ⊢
      simp [List.filter_cons, h, ih]
    · simp only [mapDelete] at ih ⊢
      simp [List.filter_cons, h, List.find?_cons, ih]

/-- `mapGet` after `mapDelete` of the same key is `undefined`. -/
theorem mapGet_mapDelete (m : Registry) (k : String) :
    mapGet (mapDelete m k) k = none := by
  simp [mapGet, find?_mapDelete]

/-- No entry under a deleted key survives in the registry. -/
theorem countP_mapDelete (m : Registry) (k : String) :
    (mapDelete m k).countP (fun e => e.1 == k) = 0 := by
  rw [List.countP_eq_zero]
  intro e he
  have := (List.mem_filter.mp he).2
  simpa using this

/-- Case-equivalent char lists lower-case to the same list. -/
theorem caseEquivChars_map_lower :
    ∀ {l1 l2 : List Char}, caseEquivChars l1 l2 = true →
      l1.map lowerChar = l2.map lowerChar
  | [], [], _ => rfl
  | [], _ :: _, h => by simp [caseEquivChars] at h
  | _ :: _, [], h => by simp [caseEquivChars] at h
  | c1 :: r1, c2 :: r2, h => by
    have h' := h
    simp only [caseEquivChars, Bool.and_eq_true, beq_iff_eq] at h'
    simp [h'.1, caseEquivChars_map_lower h'.2]

/-- Case-equivalent strings lower-case to the same string. -/
theorem toLowerCase_eq_of_caseEquiv {s1 s2 : String}
    (h : caseEquiv s1 s2 = true) : toLowerCase s1 = toLowerCase s2 := by
  unfold toLowerCase
  rw [caseEquivChars_map_lower h]

/-! ## Claims -/

/-- C10: `getState()` only ever returns `connecting`, `connected` or
`disconnected` — never `error`, and the `error` broadcast of `onerror`
mutates no field, so the state reported right after it is unchanged;
with no socket (`ws = null`) it returns `disconnected`. -/
theorem getState_range (s : WSState) :
    (getState s = ConnectionState.connecting ∨
      getState s = ConnectionState.connected ∨
      getState s = ConnectionState.disconnected) ∧
    getState s ≠ ConnectionState.error ∧
    (handleError s).1 = s ∧
    (s.ws = none → getState s = ConnectionState.disconnected) := by
  refine ⟨?_, ?_, rfl, ?_⟩
  · rcases hw : s.ws with _ | rs
    · simp [getState, hw]
    · cases rs <;> simp [getState, hw]
  · rcases hw : s.ws with _ | rs
    · simp [getState, hw]
    · cases rs <;> simp [getState, hw]
  · intro hw
    simp [getState, hw]

/-- C10 witness: with no socket the reported state is `disconnected`. -/
theorem getState_range_witness :
    initState.ws = none ∧ getState initState = ConnectionState.disconnected :=
  ⟨rfl, (getState_range initState).2.2.2 rfl⟩

/-- C5: a frame on which `JSON.parse` throws, or whose `e` discriminator
is neither `"kline"` nor `"trade"`, invokes no handler; the `try`/`catch`
swallows the parse exception (modelled by `frameData` returning `none`
rather than faulting) and `handleMessage` writes no instance field, so
connection state and subscriptions are untouched by construction. -/
theorem handleMessage_malformed (s : WSState) (fr : RawFrame)
    (h : frameData fr = none ∨ frameData fr = some Payload.other) :
    handleMessage s fr = [] := by
  unfold handleMessage
  rcases h with h | h <;> rw [h]

/-- C5 witness: an unparseable frame produces no handler invocation. -/
theorem handleMessage_malformed_witness :
    (frameData RawFrame.invalid = none ∨
      frameData RawFrame.invalid = some Payload.other) ∧
    handleMessage initState RawFrame.invalid = [] :=
  ⟨Or.inl rfl, handleMessage_malformed initState RawFrame.invalid (Or.inl rfl)⟩

/-- C7: the parsed Candlestick's `time` is the kline start time floored
to whole seconds (`time * 1000 ≤ k.t < time * 1000 + 1000`), with
`k.t = 1700000000000` giving `time = 1700000000`, and the OHLCV string
fields are parsed to numbers via `parseFloat`. -/
theorem parseKlineData_time_floor (d : BinanceKlineWS) :
    ((parseKlineData d).time * 1000 ≤ d.k.t ∧
      d.k.t < (parseKlineData d).time * 1000 + 1000) ∧
    (parseKlineData d).«open» = parseFloat d.k.o ∧
    (parseKlineData d).high = parseFloat d.k.h ∧
    (parseKlineData d).low = parseFloat d.k.l ∧
    (parseKlineData d).close = parseFloat d.k.c ∧
    (parseKlineData d).volume = parseFloat d.k.v ∧
    (d.k.t = 1700000000000 → (parseKlineData d).time = 1700000000) := by
  refine ⟨?_, rfl, rfl, rfl, rfl, rfl, ?_⟩
  · have h1 := Nat.div_add_mod d.k.t 1000
    have h2 := Nat.mod_lt d.k.t (show 0 < 1000 by norm_num)
    have ht : (parseKlineData d).time = d.k.t / 1000 := rfl
    omega
  · intro h
    show d.k.t / 1000 = 1700000000
    rw [h]

/-- C7 witness: the sample kline at `k.t = 1700000000000` parses to a
candle with `time = 1700000000`. -/
theorem parseKlineData_time_floor_witness :
    sampleKline.k.t = 1700000000000 ∧
    (parseKlineData sampleKline).time = 1700000000 :=
  ⟨rfl, (parseKlineData_time_floor sampleKline).2.2.2.2.2.2 rfl⟩

/-- C9: the kline (and trade) stream key is a pure function of its
arguments and is case-insensitive in the symbol: any two symbols that
differ only in letter case yield identical keys, in particular
`"btcusdt"` and `"BTCUSDT"`. -/
theorem streamKey_case_insensitive (s1 s2 interval : String)
    (h : caseEquiv s1 s2 = true) :
    getKlineStreamName s1 interval = getKlineStreamName s2 interval ∧
    getTradeStreamName s1 = getTradeStreamName s2 := by
  have hl := toLowerCase_eq_of_caseEquiv h
  exact ⟨by simp [getKlineStreamName, hl], by simp [getTradeStreamName, hl]⟩

/-- C9 witness: `"btcusdt"` and `"BTCUSDT"` differ only in case and give
the same kline stream key. -/
theorem streamKey_case_insensitive_witness :
    caseEquiv "btcusdt" "BTCUSDT" = true ∧
    getKlineStreamName "btcusdt" "1m" = getKlineStreamName "BTCUSDT" "1m" :=
  ⟨by decide,
    (streamKey_case_insensitive "btcusdt" "BTCUSDT" "1m" (by decide)).1⟩

/-- C1: every socket close below the attempt cap schedules a
reconnection timer with delay `reconnectDelay * 2 ^ (attempt − 1)` for
the incremented attempt counter (`= 1000 * 2 ^ oldAttempts`); once the
counter has reached `maxReconnectAttempts = 5`, the close handler
schedules nothing, leaves the counter unchanged, and the reported state
stays `disconnected` (only an explicit `connect` creates a socket again). -/
theorem handleClose_backoff (s : WSState) :
    (s.reconnectAttempts < maxReconnectAttempts →
      (handleClose s).2.2 = some (reconnectDelay * 2 ^ s.reconnectAttempts) ∧
      (handleClose s).1.reconnectAttempts = s.reconnectAttempts + 1) ∧
    (maxReconnectAttempts ≤ s.reconnectAttempts →
      (handleClose s).2.2 = none ∧
      (handleClose s).1.reconnectAttempts = s.reconnectAttempts ∧
      getState (handleClose s).1 = ConnectionState.disconnected) := by
  constructor
  · intro h
    have hn : ¬ s.reconnectAttempts ≥ maxReconnectAttempts := by omega
    simp [handleClose, attemptReconnect, stopPing, hn]
  · intro h
    have hy : s.reconnectAttempts ≥ maxReconnectAttempts := h
    refine ⟨?_, ?_, ?_⟩
    · simp [handleClose, attemptReconnect, stopPing, hy]
    · simp [handleClose, attemptReconnect, stopPing, hy]
    · rcases hw : s.ws with _ | rs <;>
        simp [handleClose, attemptReconnect, stopPing, getState, hy, hw]

/-- C1 witness: at 2 prior attempts the scheduled delay is
`1000 * 2 ^ 2 = 4000` ms; at the cap of 5 nothing is scheduled. -/
theorem handleClose_backoff_witness :
    ((stateWithAttempts 2).reconnectAttempts < maxReconnectAttempts ∧
      (handleClose (stateWithAttempts 2)).2.2 =
        some (reconnectDelay * 2 ^ (stateWithAttempts 2).reconnectAttempts)) ∧
    (maxReconnectAttempts ≤ (stateWithAttempts 5).reconnectAttempts ∧
      (handleClose (stateWithAttempts 5)).2.2 = none) :=
  ⟨⟨by decide, ((handleClose_backoff (stateWithAttempts 2)).1 (by decide)).1⟩,
    ⟨by decide, ((handleClose_backoff (stateWithAttempts 5)).2 (by decide)).1⟩⟩

/-- C2: after `disconnect()` completes, a previously scheduled
reconnection timer that later fires performs no connection attempt at
all: `disconnect` empties the stream list, and the timer body reconnects
only when the stream list is non-empty, so it changes nothing and emits
no event (in particular no socket construction). -/
theorem disconnect_blocks_reconnect_timer (s : WSState) :
    reconnectTimerBody (disconnect s).1 = ((disconnect s).1, []) := by
  rcases s with ⟨ws, a, p, st, kh, th, ch⟩
  cases ws <;> simp [disconnect, stopPing, reconnectTimerBody]

/-- C3 counterexample: starting from a state with 3 reconnection
attempts recorded, `disconnect()` leaves the attempt counter at 3 — it
is not reset to zero as the claim states. -/
theorem disconnect_keeps_attempts_cex :
    (disconnect (stateWithAttempts 3)).1.reconnectAttempts = 3 ∧
    ¬ (disconnect (stateWithAttempts 3)).1.reconnectAttempts = 0 := by
  constructor <;> decide

/-- C3 (amended): `disconnect()` stops the keepalive timer, clears the
kline/trade/connection registries and the stream list, nulls the socket
field and called `close()` on it exactly when one existed — but it
leaves the reconnect attempt counter unchanged; the counter is reset to
zero only when a subsequently created socket fires `onopen`. -/
theorem disconnect_cleanup (s : WSState) :
    (disconnect s).1.pingActive = false ∧
    (disconnect s).1.klineHandlers = [] ∧
    (disconnect s).1.tradeHandlers = [] ∧
    (disconnect s).1.connectionHandlers = [] ∧
    (disconnect s).1.streams = [] ∧
    (disconnect s).1.ws = none ∧
    ((disconnect s).2 = true ↔ s.ws ≠ none) ∧
    (disconnect s).1.reconnectAttempts = s.reconnectAttempts ∧
    (handleOpen (disconnect s).1).1.reconnectAttempts = 0 := by
  rcases s with ⟨ws, a, p, st, kh, th, ch⟩
  cases ws <;> simp [disconnect, stopPing, handleOpen]

/-- C4: subscribing a handler for a stream key and then unsubscribing
that key leaves zero registry entries under the key, and a frame whose
derived stream key equals it then invokes no handler. -/
theorem subscribe_unsubscribe_clears (s : WSState)
    (symbol interval : String) (h : HandlerId) (d : BinanceKlineWS)
    (td : TradeStreamData) (frk frt : RawFrame) :
    ((unsubscribeKline (subscribeKline s symbol interval h) symbol
        interval).klineHandlers.countP
      (fun e => e.1 == getKlineStreamName symbol interval) = 0) ∧
    (frameData frk = some (Payload.kline d) →
      getKlineStreamName d.s d.k.i = getKlineStreamName symbol interval →
      handleMessage
        (unsubscribeKline (subscribeKline s symbol interval h) symbol interval)
        frk = []) ∧
    ((unsubscribeTrade (subscribeTrade s symbol h)
        symbol).tradeHandlers.countP
      (fun e => e.1 == getTradeStreamName symbol) = 0) ∧
    (frameData frt = some (Payload.trade td) →
      getTradeStreamName td.s = getTradeStreamName symbol →
      handleMessage (unsubscribeTrade (subscribeTrade s symbol h) symbol)
        frt = []) := by
  refine ⟨countP_mapDelete _ _, ?_, countP_mapDelete _ _, ?_⟩
  · intro hf hk
    unfold handleMessage
    rw [hf]
    simp only [unsubscribeKline, subscribeKline, hk, mapGet_mapDelete]
  · intro hf hk
    unfold handleMessage
    rw [hf]
    simp only [unsubscribeTrade, subscribeTrade, hk, mapGet_mapDelete]

/-- C4 witness: subscribe/unsubscribe `BTCUSDT@1m`, then a kline frame
for that key invokes nothing. -/
theorem subscribe_unsubscribe_clears_witness :
    frameData (RawFrame.direct (Payload.kline sampleKline)) =
      some (Payload.kline sampleKline) ∧
    getKlineStreamName sampleKline.s sampleKline.k.i =
      getKlineStreamName "BTCUSDT" "1m" ∧
    handleMessage
      (unsubscribeKline (subscribeKline initState "BTCUSDT" "1m" 7)
        "BTCUSDT" "1m")
      (RawFrame.direct (Payload.kline sampleKline)) = [] :=
  ⟨rfl, rfl,
    (subscribe_unsubscribe_clears initState "BTCUSDT" "1m" 7 sampleKline
      sampleTrade (RawFrame.direct (Payload.kline sampleKline))
      (RawFrame.direct (Payload.trade sampleTrade))).2.1 rfl rfl⟩

/-- C6: the combined-stream envelope
`{ stream: "btcusdt@trade", data: { e: "trade", s: "BTCUSDT",
p: "50000.1", ... } }` is unwrapped to its `data` payload, and the trade
handler registered under `btcusdt@trade` is invoked exactly once with
that tick, whose price field is `"50000.1"` (numerically 50000.1). -/
theorem combined_trade_dispatch :
    getTradeStreamName "btcusdt" = "btcusdt@trade" ∧
    frameData (RawFrame.combined "btcusdt@trade"
      (Payload.trade specTradeFrame)) = some (Payload.trade specTradeFrame) ∧
    handleMessage (subscribeTrade initState "btcusdt" 42)
        (RawFrame.combined "btcusdt@trade" (Payload.trade specTradeFrame)) =
      [Event.tradeCallback 42 specTradeFrame] ∧
    specTradeFrame.p = "50000.1" ∧
    parseFloat specTradeFrame.p = some (500001 / 10) := by
  refine ⟨by decide, rfl, by decide, rfl, ?_⟩
  simp [specTradeFrame, parseFloat, digitsToNat, digitVal, List.takeWhile,
    List.dropWhile]
  norm_num

/-- C8 counterexample: `connect([])` with zero stream keys still creates
a socket — the state holds a CONNECTING socket and a
`new WebSocket("wss://testnet.binance.vision/ws/stream?streams=")`
construction was performed, contradicting "no socket is created". -/
theorem connect_empty_cex :
    (connect initState []).1.ws = some ReadyState.CONNECTING ∧
    (connect initState []).2 =
      [Event.socketOpenAttempt
        "wss://testnet.binance.vision/ws/stream?streams="] := by
  constructor <;> decide

/-- C8 (amended): `connect` with zero stream keys does attempt a
connection from every state: it announces `connecting` to the observers
and constructs a socket to the combined-stream URL with an empty stream
list (`createStreamUrl [] = WS_BASE_URL ++ "/stream?streams="`). -/
theorem connect_empty_still_connects (s : WSState) :
    (connect s []).1.ws = some ReadyState.CONNECTING ∧
    (connect s []).2 =
      notifyConnectionState { s with streams := ([] : List String) }
        ConnectionState.connecting ++
        [Event.socketOpenAttempt (createStreamUrl [])] ∧
    createStreamUrl [] = WS_BASE_URL ++ "/stream?streams=" :=
  ⟨rfl, rfl, by decide⟩

end BinanceWS
